import Mathlib

/-!
Shallow embedding of the YapAI client (src/types.ts): the data model
(YapStyle, YapLength, YapRequest, HistoryItem), the history cache with its
localStorage persistence, the generate handler, the clear-history handler,
the recording toggle, and the transcription-resolution handler of
mediaRecorder.onstop.  Asynchronous handlers are modelled as pure functions
from the pre-state plus the outcome of the awaited remote call to the
post-state, together with the list of outbound generation calls (for the
generate handler) or the number of media captures started (for the
recording handler).
-/

namespace YapAI

/-- The ten style presets of `enum YapStyle`. -/
inductive YapStyle where
  | DEFAULT
  | ZOOMER
  | CORPORATE
  | ACADEMIC
  | PIRATE
  | SHAKESPEAREAN
  | LINKEDIN
  | TECH_BRO
  | ANGRY_BOOMER
  | PHILOSOPHER
  deriving DecidableEq, Repr

/-- The string value each `YapStyle` member carries in the source. -/
def YapStyle.label : YapStyle → String
  | .DEFAULT => "Default"
  | .ZOOMER => "Zoomer / Brainrot"
  | .CORPORATE => "Corporate Speak"
  | .ACADEMIC => "Academic / Intellectual"
  | .PIRATE => "Pirate"
  | .SHAKESPEAREAN => "Shakespearean"
  | .LINKEDIN => "LinkedIn Lunatic"
  | .TECH_BRO => "SF Tech Bro"
  | .ANGRY_BOOMER => "Angry Boomer"
  | .PHILOSOPHER => "Existential Philosopher"

/-- The four length presets of `enum YapLength`. -/
inductive YapLength where
  | SHORT
  | MEDIUM
  | LONG
  | EXTREME
  deriving DecidableEq, Repr

/-- The string value each `YapLength` member carries in the source. -/
def YapLength.label : YapLength → String
  | .SHORT => "Short (Quick Yap)"
  | .MEDIUM => "Medium (Solid Rant)"
  | .LONG => "Long (Full Manifesto)"
  | .EXTREME => "Extreme (Filibuster)"

/-- `interface YapRequest`: the argument triple of a `generateYap` call. -/
structure YapRequest where
  topic : String
  style : YapStyle
  length : YapLength
  deriving DecidableEq, Repr

/-- `interface HistoryItem`.  `timestamp` is `Date.now()` epoch millis. -/
structure HistoryItem where
  id : String
  topic : String
  content : String
  style : YapStyle
  timestamp : Nat
  deriving DecidableEq, Repr

/-- The durable-storage slot for the key `yap_history`.
`missing` is `localStorage.getItem` returning null, `malformed` is a
present value on which `JSON.parse` throws, and `parsed items` is a
present value that parses to a history array. -/
inductive StoredHistory where
  | missing
  | malformed
  | parsed (items : List HistoryItem)
  deriving DecidableEq, Repr

/-- The load-history `useEffect` (mount): `getItem` then `JSON.parse`
inside try/catch.  A missing value leaves the initial empty state; a parse
failure is caught (logged) and likewise leaves the empty state; a parsed
array becomes the history wholesale, with no length clamp. -/
def loadHistory : StoredHistory → List HistoryItem
  | .missing => []
  | .malformed => []
  | .parsed items => items

/-- The save-history `useEffect` (`[history]` deps):
`setItem(yap_history, JSON.stringify(history))` — a full overwrite. -/
def saveHistoryEffect (history : List HistoryItem) : StoredHistory :=
  .parsed history

/-- The component state hooks of `App`, plus the `mediaRecorderRef`
(modelled as the flag `recorderSet`; the audio-chunk buffer carries no
observable state the claims mention and is omitted). -/
structure AppState where
  topic : String
  style : YapStyle
  length : YapLength
  generatedContent : String
  isLoading : Bool
  history : List HistoryItem
  error : Option String
  isRecording : Bool
  isTranscribing : Bool
  recorderSet : Bool
  deriving DecidableEq, Repr

/-- The `useState` initial values of `App`. -/
def initialState : AppState :=
  { topic := ""
    style := .ZOOMER
    length := .MEDIUM
    generatedContent := ""
    isLoading := false
    history := []
    error := none
    isRecording := false
    isTranscribing := false
    recorderSet := false }

/-- JavaScript `String.prototype.trim`: strips leading and trailing
whitespace from both ends of the string. -/
def jsTrim (s : String) : String :=
  ⟨((s.data.dropWhile Char.isWhitespace).reverse.dropWhile Char.isWhitespace).reverse⟩

/-- The validation message set by `handleGenerate` on an empty topic. -/
def topicValidationMsg : String := "Please enter a topic to yap about."

/-- The fixed failure message of the generate catch branch. -/
def generateFailMsg : String := "Failed to generate yap. Please try again."

/-- The fixed failure message of the transcription catch branch. -/
def transcribeFailMsg : String := "Failed to transcribe audio. Please try again."

/-- The message set when `getUserMedia` rejects. -/
def micDeniedMsg : String := "Microphone access denied or not supported."

/-- Outcome of the awaited `generateYap` call. -/
inductive GenResult where
  | ok (content : String)
  | error
  deriving DecidableEq, Repr

/-- `setHistory(prev => [newItem, ...prev].slice(0, 10))`. -/
def recordItem (item : HistoryItem) (prev : List HistoryItem) : List HistoryItem :=
  (item :: prev).take 10

/-- `handleGenerate`, run to completion for a given outcome of the awaited
`generateYap` call.  `freshId` stands for `crypto.randomUUID()` and `now`
for `Date.now()`.  Returns the post-state and the list of generation calls
issued (arguments exactly as passed: the raw `topic`, `style`, `length`).
The guard is JS truthiness of `topic.trim()`, i.e. the trimmed topic being
empty.  Before dispatch the handler clears the error, sets the loading
flag and empties the displayed content; `finally` clears the loading
flag. -/
def handleGenerate (s : AppState) (res : GenResult) (freshId : String) (now : Nat) :
    AppState × List YapRequest :=
  if jsTrim s.topic = "" then
    ({ s with error := some topicValidationMsg }, [])
  else
    match res with
    | .ok result =>
        let newItem : HistoryItem :=
          { id := freshId, topic := s.topic, content := result,
            style := s.style, timestamp := now }
        ({ s with error := none
                  isLoading := false
                  generatedContent := result
                  history := recordItem newItem s.history },
         [⟨s.topic, s.style, s.length⟩])
    | .error =>
        ({ s with error := some generateFailMsg
                  isLoading := false
                  generatedContent := "" },
         [⟨s.topic, s.style, s.length⟩])

/-- `handleClearHistory`: `setHistory([])` and
`localStorage.removeItem(yap_history)`, both synchronous in the handler. -/
def handleClearHistory (s : AppState) (_st : StoredHistory) :
    AppState × StoredHistory :=
  ({ s with history := [] }, .missing)

/-- The clear-history user action as observed after React flushes: the
handler runs, the history mutation re-triggers the save `useEffect`, which
rewrites the storage entry. -/
def clearHistoryOp (s : AppState) (st : StoredHistory) :
    AppState × StoredHistory :=
  let r := handleClearHistory s st
  (r.1, saveHistoryEffect r.1.history)

/-- Outcome of the awaited `transcribeAudio` call. -/
inductive TranscribeResult where
  | ok (text : String)
  | error
  deriving DecidableEq, Repr

/-- The `mediaRecorder.onstop` handler from the transcription call onward,
for a given outcome.  On success, `if (text)` (JS truthiness: skipped for
the empty transcript) merges the transcript into the topic: joined to the
trimmed previous topic with a space when that trim is non-empty, replacing
the topic otherwise.  On failure the fixed transcription error is set and
the topic untouched.  `finally` clears the transcribing flag. -/
def onstopResolve (s : AppState) (res : TranscribeResult) : AppState :=
  match res with
  | .ok text =>
      if text = "" then
        { s with isTranscribing := false }
      else
        { s with topic :=
                   if jsTrim s.topic = "" then text
                   else jsTrim s.topic ++ " " ++ text
                 isTranscribing := false }
  | .error =>
      { s with error := some transcribeFailMsg, isTranscribing := false }

/-- Outcome of the awaited `getUserMedia` request. -/
inductive MicAccess where
  | granted
  | denied
  deriving DecidableEq, Repr

/-- `startRecording`, run for a given permission outcome.  Returns the
post-state and the number of media captures this invocation started.
There is no check of `isRecording` anywhere in the function: on a grant it
unconditionally acquires a stream, installs a fresh recorder in the ref,
starts it, sets the recording flag and clears the error. -/
def startRecording (s : AppState) (access : MicAccess) : AppState × Nat :=
  match access with
  | .granted =>
      ({ s with recorderSet := true, isRecording := true, error := none }, 1)
  | .denied =>
      ({ s with error := some micDeniedMsg }, 0)

/-- `stopRecording`: guarded by `mediaRecorderRef.current && isRecording`;
stops the recorder and clears the recording flag, otherwise a no-op. -/
def stopRecording (s : AppState) : AppState :=
  if s.recorderSet && s.isRecording then { s with isRecording := false } else s

/-- The record toggle button:
`onClick={isRecording ? stopRecording : startRecording}` with
`disabled={isTranscribing}` (a disabled button fires no click). -/
def recordToggleClick (s : AppState) (access : MicAccess) : AppState × Nat :=
  if s.isTranscribing then (s, 0)
  else if s.isRecording then (stopRecording s, 0)
  else startRecording s access

/-- Newest-first order of a history list: timestamps non-increasing. -/
abbrev tsSorted (l : List HistoryItem) : Prop :=
  l.Pairwise (fun a b => b.timestamp ≤ a.timestamp)

/-- A concrete history item used in witnesses and counterexamples. -/
def mkItem (n : Nat) : HistoryItem :=
  { id := toString n, topic := "t", content := "c",
    style := .DEFAULT, timestamp := n }

/-- A concrete full cache: ten items, newest-first (timestamps 9 down to 0). -/
def exFull10 : List HistoryItem := (List.range 10).reverse.map mkItem

/-- A concrete over-long stored sequence of eleven items. -/
def exList11 : List HistoryItem := (List.range 11).map mkItem

/-- A concrete state in which a recording session is active. -/
def sRec : AppState :=
  { initialState with isRecording := true, recorderSet := true,
                      error := some micDeniedMsg }

/-- C1 (counterexample): the claim includes the state obtained by loading
from durable storage among the states bounded by 10, but the load effect
applies no length clamp: loading a stored sequence of eleven items yields
a cache of eleven entries. -/
theorem loadHistory_exceeds_ten :
    ¬ (loadHistory (StoredHistory.parsed exList11)).length ≤ 10 := by decide

/-- C1 (amended): the bound and order are maintained by `recordItem`
(`setHistory(prev => [newItem, ...prev].slice(0, 10))`): from a
newest-first cache of at most 10 entries whose timestamps do not exceed
the new item's, recording yields at most 10 entries, the new item at
index 0, newest-first order preserved, and when the cache held exactly 10
entries the oldest (last) entry is evicted.  The load effect applies no
such clamp, so the bound holds for loaded states only when the stored
sequence itself had at most 10 entries. -/
theorem history_record_invariant (item : HistoryItem) (prev : List HistoryItem)
    (hsorted : tsSorted prev) (hnew : ∀ x ∈ prev, x.timestamp ≤ item.timestamp)
    (_hlen : prev.length ≤ 10) :
    (recordItem item prev).length ≤ 10
    ∧ (recordItem item prev).head? = some item
    ∧ tsSorted (recordItem item prev)
    ∧ (prev.length = 10 →
        recordItem item prev = item :: prev.dropLast
        ∧ (recordItem item prev).length = 10) := by
  refine ⟨?_, ?_, ?_, ?_⟩
  · simp [recordItem, List.length_take]
  · rfl
  · exact List.Pairwise.sublist (List.take_sublist _ _)
      (List.pairwise_cons.mpr ⟨hnew, hsorted⟩)
  · intro h10
    constructor
    · show (item :: prev).take 10 = item :: prev.dropLast
      rw [List.take_succ_cons]
      rw [List.dropLast_eq_take, h10]
    · simp [recordItem, List.length_take, h10]

/-- C1 (witness): recording an eleventh item into the concrete full cache. -/
theorem history_record_invariant_witness :
    (recordItem (mkItem 10) exFull10).length ≤ 10
    ∧ (recordItem (mkItem 10) exFull10).head? = some (mkItem 10)
    ∧ tsSorted (recordItem (mkItem 10) exFull10)
    ∧ (exFull10.length = 10 →
        recordItem (mkItem 10) exFull10 = mkItem 10 :: exFull10.dropLast
        ∧ (recordItem (mkItem 10) exFull10).length = 10) :=
  history_record_invariant (mkItem 10) exFull10 (by decide) (by decide) (by decide)

/-- C2: when the trimmed topic is non-empty, `handleGenerate` issues
exactly one generation call, with arguments built from the current topic,
style and length; when the trimmed topic is empty it issues no call and
sets the validation error message. -/
theorem generate_topic_guard (s : AppState) (res : GenResult)
    (freshId : String) (now : Nat) :
    (jsTrim s.topic ≠ "" →
      (handleGenerate s res freshId now).2 = [⟨s.topic, s.style, s.length⟩])
    ∧ (jsTrim s.topic = "" →
      (handleGenerate s res freshId now).2 = []
      ∧ (handleGenerate s res freshId now).1.error = some topicValidationMsg) := by
  constructor
  · intro h
    cases res <;> simp [handleGenerate, h]
  · intro h
    simp [handleGenerate, h]

/-- C2 (witness): one call for the topic "cargo", no call and the
validation message for the initial empty topic. -/
theorem generate_topic_guard_witness :
    (handleGenerate { initialState with topic := "cargo" }
        GenResult.error "i" 0).2
      = [⟨"cargo", YapStyle.ZOOMER, YapLength.MEDIUM⟩]
    ∧ (handleGenerate initialState GenResult.error "i" 0).2 = []
    ∧ (handleGenerate initialState GenResult.error "i" 0).1.error
      = some topicValidationMsg :=
  ⟨(generate_topic_guard { initialState with topic := "cargo" }
      GenResult.error "i" 0).1 (by decide),
   ((generate_topic_guard initialState GenResult.error "i" 0).2 (by decide)).1,
   ((generate_topic_guard initialState GenResult.error "i" 0).2 (by decide)).2⟩

/-- C3: when the generation call fails, the resulting state has empty
displayed content, the fixed failure message, the loading flag cleared,
and the history exactly as before. -/
theorem generate_failure_state (s : AppState) (freshId : String) (now : Nat)
    (h : jsTrim s.topic ≠ "") :
    (handleGenerate s GenResult.error freshId now).1.generatedContent = ""
    ∧ (handleGenerate s GenResult.error freshId now).1.error = some generateFailMsg
    ∧ (handleGenerate s GenResult.error freshId now).1.isLoading = false
    ∧ (handleGenerate s GenResult.error freshId now).1.history = s.history := by
  simp [handleGenerate, h]

/-- C3 (witness): a failing generation at the topic "cargo". -/
theorem generate_failure_state_witness :
    (handleGenerate { initialState with topic := "cargo", history := [mkItem 0] }
        GenResult.error "i" 5).1.generatedContent = ""
    ∧ (handleGenerate { initialState with topic := "cargo", history := [mkItem 0] }
        GenResult.error "i" 5).1.error = some generateFailMsg
    ∧ (handleGenerate { initialState with topic := "cargo", history := [mkItem 0] }
        GenResult.error "i" 5).1.isLoading = false
    ∧ (handleGenerate { initialState with topic := "cargo", history := [mkItem 0] }
        GenResult.error "i" 5).1.history
      = ({ initialState with topic := "cargo", history := [mkItem 0] } : AppState).history :=
  generate_failure_state
    { initialState with topic := "cargo", history := [mkItem 0] } "i" 5 (by decide)

/-- C4 (counterexample): after the clear-history action, including the
save effect the history mutation triggers, the storage still holds an
entry for the history key — the effect rewrites it with the serialized
empty sequence right after `removeItem`. -/
theorem clear_rewrites_storage_entry :
    (clearHistoryOp { initialState with history := [mkItem 0] }
        (StoredHistory.parsed [mkItem 0])).2 ≠ StoredHistory.missing := by decide

/-- C4 (amended): the clear action empties the in-memory cache and
`removeItem` deletes the durable entry synchronously, but the save effect
triggered by the mutation immediately rewrites the entry with the empty
sequence; afterwards the storage holds the history key mapped to an empty
sequence, and loading it yields empty. -/
theorem clear_history_result (s : AppState) (st : StoredHistory) :
    (clearHistoryOp s st).1.history = []
    ∧ (clearHistoryOp s st).2 = StoredHistory.parsed []
    ∧ loadHistory (clearHistoryOp s st).2 = [] := by
  exact ⟨rfl, rfl, rfl⟩

/-- C5 (counterexample): `handleGenerate` passes the topic to the
generation call, and stores it in the new history item, exactly as typed:
for the topic "  cargo shorts  " the issued request and the recorded item
carry the surrounding whitespace, which the trim would have removed. -/
theorem generate_passes_untrimmed_topic :
    (handleGenerate { initialState with topic := "  cargo shorts  " }
        (GenResult.ok "y") "i" 0).2
      = [⟨"  cargo shorts  ", YapStyle.ZOOMER, YapLength.MEDIUM⟩]
    ∧ ((handleGenerate { initialState with topic := "  cargo shorts  " }
        (GenResult.ok "y") "i" 0).1.history.head?.map HistoryItem.topic)
      = some "  cargo shorts  "
    ∧ jsTrim "  cargo shorts  " ≠ "  cargo shorts  " := by decide

/-- C5 (amended): the guard only requires the topic to be non-empty after
trimming; the topic string passed to the generation call and stored in
the resulting history item is the raw topic as typed, which may carry
leading or trailing whitespace. -/
theorem generate_topic_as_typed (s : AppState) (content freshId : String)
    (now : Nat) (h : jsTrim s.topic ≠ "") :
    (handleGenerate s (GenResult.ok content) freshId now).2
      = [⟨s.topic, s.style, s.length⟩]
    ∧ (handleGenerate s (GenResult.ok content) freshId now).1.history.head?
      = some ⟨freshId, s.topic, content, s.style, now⟩ := by
  simp [handleGenerate, h, recordItem]

/-- C5 (witness): the amended statement at the whitespace-padded topic. -/
theorem generate_topic_as_typed_witness :
    (handleGenerate { initialState with topic := "  cargo shorts  " }
        (GenResult.ok "y") "i" 0).2
      = [⟨"  cargo shorts  ", YapStyle.ZOOMER, YapLength.MEDIUM⟩]
    ∧ (handleGenerate { initialState with topic := "  cargo shorts  " }
        (GenResult.ok "y") "i" 0).1.history.head?
      = some ⟨"i", "  cargo shorts  ", "y", YapStyle.ZOOMER, 0⟩ :=
  generate_topic_as_typed
    { initialState with topic := "  cargo shorts  " } "y" "i" 0 (by decide)

/-- C6: a missing stored value, and a stored value on which the JSON
parse throws, both load to the empty history; the parse failure is caught
inside the effect, so no exception escapes. -/
theorem load_missing_or_malformed_empty :
    loadHistory StoredHistory.missing = []
    ∧ loadHistory StoredHistory.malformed = [] :=
  ⟨rfl, rfl⟩

/-- C7 (counterexample): for the whitespace-only (hence non-empty) topic
" ", a successful transcript "hello" replaces the topic instead of being
space-joined onto the existing topic text. -/
theorem transcribe_replaces_whitespace_topic :
    (" " : String) ≠ ""
    ∧ (onstopResolve { initialState with topic := " " }
        (TranscribeResult.ok "hello")).topic = "hello"
    ∧ ("hello" : String) ≠ " " ++ " " ++ "hello" := by decide

/-- C7 (amended): on a successful, non-empty transcript the topic becomes
the transcript space-joined onto the TRIMMED previous topic when that
trim is non-empty, and the transcript alone otherwise (so a
whitespace-only topic is replaced); on failure the fixed transcription
error is set and the topic left exactly unchanged; the transcribing flag
is cleared either way. -/
theorem onstop_transcription_resolution (s : AppState) (text : String)
    (h : text ≠ "") :
    (onstopResolve s (TranscribeResult.ok text)).topic
      = (if jsTrim s.topic = "" then text else jsTrim s.topic ++ " " ++ text)
    ∧ (onstopResolve s (TranscribeResult.ok text)).isTranscribing = false
    ∧ (onstopResolve s TranscribeResult.error).topic = s.topic
    ∧ (onstopResolve s TranscribeResult.error).error = some transcribeFailMsg
    ∧ (onstopResolve s TranscribeResult.error).isTranscribing = false := by
  refine ⟨?_, ?_, rfl, rfl, rfl⟩ <;> simp [onstopResolve, h]

/-- C7 (witness): resolution at the topic "hi " and transcript "there". -/
theorem onstop_transcription_resolution_witness :
    (onstopResolve { initialState with topic := "hi " }
        (TranscribeResult.ok "there")).topic
      = (if jsTrim ("hi " : String) = "" then "there"
         else jsTrim ("hi " : String) ++ " " ++ "there")
    ∧ (onstopResolve { initialState with topic := "hi " }
        (TranscribeResult.ok "there")).isTranscribing = false
    ∧ (onstopResolve { initialState with topic := "hi " }
        TranscribeResult.error).topic
      = ({ initialState with topic := "hi " } : AppState).topic
    ∧ (onstopResolve { initialState with topic := "hi " }
        TranscribeResult.error).error = some transcribeFailMsg
    ∧ (onstopResolve { initialState with topic := "hi " }
        TranscribeResult.error).isTranscribing = false :=
  onstop_transcription_resolution
    { initialState with topic := "hi " } "there" (by decide)

/-- C8 (counterexample): `startRecording` itself contains no check of the
recording flag: invoked in a state whose flag is already set, it starts a
second capture (one more stream acquired) and changes the state (the
error is cleared), so the invocation is not a no-op. -/
theorem startRecording_unguarded :
    sRec.isRecording = true
    ∧ (startRecording sRec MicAccess.granted).2 = 1
    ∧ (startRecording sRec MicAccess.granted).1 ≠ sRec := by decide

/-- C8 (amended): the guard lives in the record toggle button, not in
`startRecording`: while the recording flag is set, a click starts no
capture — it invokes `stopRecording` instead (or does nothing when the
button is disabled during transcription).  Only direct, un-toggled
invocation of `startRecording` can start a second capture. -/
theorem toggle_guards_recording (s : AppState) (access : MicAccess)
    (h : s.isRecording = true) :
    (recordToggleClick s access).2 = 0
    ∧ (recordToggleClick s access).1
      = (if s.isTranscribing then s else stopRecording s) := by
  by_cases ht : s.isTranscribing <;> simp [recordToggleClick, h, ht]

/-- C8 (witness): a click while the concrete recording state is active. -/
theorem toggle_guards_recording_witness :
    (recordToggleClick sRec MicAccess.granted).2 = 0
    ∧ (recordToggleClick sRec MicAccess.granted).1
      = (if sRec.isTranscribing then sRec else stopRecording sRec) :=
  toggle_guards_recording sRec MicAccess.granted (by decide)

/-- C9: for every prior state and every prior storage content, clearing
the history and then loading what is stored yields the empty sequence. -/
theorem clear_then_load_empty (s : AppState) (st : StoredHistory) :
    loadHistory (clearHistoryOp s st).2 = [] := rfl

/-- C10: a transcription that resolves successfully with the empty string
leaves the topic exactly unchanged (`if (text)` skips the merge), for a
non-empty and for an empty previous topic alike. -/
theorem empty_transcript_leaves_topic (s : AppState) :
    (onstopResolve s (TranscribeResult.ok "")).topic = s.topic
    ∧ (onstopResolve s (TranscribeResult.ok "")).isTranscribing = false := by
  simp [onstopResolve]

end YapAI
